import Mathlib

/-!
Verification of the SafeEscape evacuation-route engine
(`src/services/mapServices/googleMapsClient.js` and the evacuation
controller) against its natural-language specification.

JavaScript numbers are idealized as rationals for all provider data and
scores; the transcendental haversine distance (`calculateDistance`) is
embedded separately over the reals, and the pipeline receives the
distance computation as an explicit function argument `calcDist`
(the source calls `calculateDistance` at that spot).

External collaborators (the Google places and directions web APIs) are
modelled as environment functions returning `Except`, mirroring the
promise resolve/reject behaviour of the source.
-/

namespace SafeEscape

/-- A latitude/longitude pair, as the `{lat, lng}` objects of the source. -/
structure LatLng where
  lat : ℚ
  lng : ℚ
deriving DecidableEq

/-- One raw result of the Google places nearby-search call, with the
fields read by `findNearbySafeLocations` (`place.name`,
`place.geometry.location.lat/lng`, `place.vicinity`, `place.place_id`). -/
structure PlaceResult where
  name : String
  lat : ℚ
  lng : ℚ
  vicinity : String
  place_id : String
deriving DecidableEq

/-- The safe-location record built by `findNearbySafeLocations`
(googleMapsClient.js lines 156-171). -/
structure SafeLocation where
  name : String
  location : LatLng
  address : String
  placeId : String
  type : String
  distance : ℚ
deriving DecidableEq

/-- A `{value}` wrapper as returned by the directions API for
`duration` and `distance`. -/
structure ValueOf where
  value : ℚ
deriving DecidableEq

/-- One leg of a directions route: `legs[0].duration.value` and
`legs[0].distance.value` are read by `selectOptimalRoute`. -/
structure Leg where
  duration : ValueOf
  distance : ValueOf
deriving DecidableEq

/-- One step of a route; `calculateSafetyScore` reads
`step.html_instructions`. -/
structure Step where
  html_instructions : String
deriving DecidableEq

/-- A directions route as consumed by `selectOptimalRoute`; `steps` and
`warnings` are carried as provider metadata (read only by
`calculateSafetyScore` and by the spec formula). -/
structure Route where
  legs : List Leg
  steps : List Step
  warnings : List String
deriving DecidableEq

/-- The payload of a directions API response: `response.data.status`
and `response.data.routes` (googleMapsClient.js lines 56-73). -/
structure DirectionsResponse where
  status : String
  routes : List Route
deriving DecidableEq

/-- The route shape read by `calculateSafetyScore`
(`route.distance.value`, `route.duration.value`, `route.steps`,
`route.warnings`). -/
structure SafetyRoute where
  distance : ValueOf
  duration : ValueOf
  steps : List Step
  warnings : List String
deriving DecidableEq

/-- The scored element built inside `selectOptimalRoute`: the first
route option (`route[0]`, absent when the provider returned no route),
its destination safe zone, and the composite score. -/
structure ScoredItem where
  route : Option Route
  destination : SafeLocation
  score : ℚ
deriving DecidableEq

/-- The successful result of `calculateEvacuationRoute`
(googleMapsClient.js lines 424-428).  `alternativeRoutes` is the filter
`routes.filter(r => r !== optimalRoute.route)`; it compares a whole
routes array `r` with the single route object `optimalRoute.route` by
identity, which is never equal, so the filter keeps every element. -/
structure EvacResult where
  route : Option Route
  destination : SafeLocation
  alternativeRoutes : List (List Route)
deriving DecidableEq

/-- The JSON responses sent by the evacuation controller, projected to
status code, `success`, `source` and error fields (the `data` payload is
not modelled; the claims concern only status, success and source). -/
structure HttpResponse where
  status : ℕ
  success : Bool
  source : Option String
  error : Option String
  message : Option String
deriving DecidableEq

/-- The places web API: called with the user location, the (clamped)
radius and a place type; rejects (`.error`) on network failure and
resolves with the parsed result list otherwise. -/
abbrev PlacesEnv := LatLng → ℚ → String → Except String (List PlaceResult)

/-- The directions web API: called with origin, destination and travel
mode; rejects on network failure and resolves with
`{status, routes}` otherwise. -/
abbrev DirectionsEnv := LatLng → LatLng → String → Except String DirectionsResponse

deriving instance DecidableEq for Except

/-- Whether an `Except` value is the error case (a rejected promise). -/
def isErr : Except ε α → Bool
  | .error _ => true
  | .ok _ => false

/-- `Promise.all` over a list of computations: resolves with the list of
results when every element resolves, rejects with the first rejection. -/
def promiseAll (f : α → Except ε β) : List α → Except ε (List β)
  | [] => .ok []
  | x :: xs => do
    let y ← f x
    let ys ← promiseAll f xs
    pure (y :: ys)

/-- Insert `x` into `l` after every element `y` with `cmp y x < 0`,
the stable insertion step of `jsSortBy`. -/
def jsInsert (cmp : α → α → ℚ) (x : α) : List α → List α
  | [] => [x]
  | y :: ys => if cmp y x < 0 then y :: jsInsert cmp x ys else x :: y :: ys

/-- `Array.prototype.sort` with a numeric comparator: stable, ascending
in the comparator (an element `a` precedes `b` when `cmp a b < 0`,
original order kept on ties). -/
def jsSortBy (cmp : α → α → ℚ) : List α → List α
  | [] => []
  | x :: xs => jsInsert cmp x (jsSortBy cmp xs)

/-- Whether the character list `needle` occurs at the start of
`haystack`. -/
def charsStartsWith : List Char → List Char → Bool
  | _, [] => true
  | [], _ :: _ => false
  | c :: cs, d :: ds => decide (c = d) && charsStartsWith cs ds

/-- Whether `needle` occurs contiguously anywhere inside `haystack`. -/
def charsHasSub : List Char → List Char → Bool
  | [], needle => charsStartsWith [] needle
  | c :: cs, needle => charsStartsWith (c :: cs) needle || charsHasSub cs needle

/-- JavaScript `String.prototype.includes`. -/
def strIncludes (s sub : String) : Bool :=
  charsHasSub s.toList sub.toList

/-- JavaScript `String.prototype.toLowerCase` (ASCII, which covers every
string the engine compares against). -/
def jsToLower (s : String) : String :=
  ⟨s.data.map Char.toLower⟩

/-- The default safe place types searched when no explicit type is
given (googleMapsClient.js lines 130-133). -/
def defaultSafeTypes : List String :=
  ["hospital", "police", "fire_station", "school", "stadium",
   "community_center", "government_office", "university"]

/-- The radius clamp `Math.min(50000, Math.max(1000, radius))`
(googleMapsClient.js line 141). -/
def clampedRadius (radius : ℚ) : ℚ :=
  min 50000 (max 1000 radius)

/-- The type list searched by `findNearbySafeLocations`:
`type ? [type] : [...defaults]` (googleMapsClient.js lines 130-133). -/
def safeTypesFor (type : Option String) : List String :=
  match type with
  | some t => [t]
  | none => defaultSafeTypes

/-- The per-type places query of `findNearbySafeLocations`
(googleMapsClient.js lines 136-172, the `searchPromises` callback):
query the places API for one type with the clamped radius and map the
raw results to `SafeLocation` records, with a distance computed by
`calculateDistance` (passed here as `calcDist`, see the module
comment). -/
def searchPlaceType (calcDist : ℚ → ℚ → ℚ → ℚ → ℚ) (env : PlacesEnv)
    (userLocation : LatLng) (radius : ℚ) (placeType : String) :
    Except String (List SafeLocation) := do
  let results ← env userLocation (clampedRadius radius) placeType
  pure (results.map (fun place =>
    { name := place.name
      location := { lat := place.lat, lng := place.lng }
      address := place.vicinity
      placeId := place.place_id
      type := placeType
      distance := calcDist userLocation.lat userLocation.lng place.lat place.lng
      : SafeLocation }))

/-- `findNearbySafeLocations(userLocation, radius, type)`
(googleMapsClient.js lines 125-190): one places query per type via
`Promise.all`, results flattened and sorted ascending by distance.
Any error is caught and the empty array returned instead. -/
def findNearbySafeLocations (calcDist : ℚ → ℚ → ℚ → ℚ → ℚ) (env : PlacesEnv)
    (userLocation : LatLng) (radius : ℚ) (type : Option String) : List SafeLocation :=
  let safeTypes := safeTypesFor type
  let attempt : Except String (List SafeLocation) := do
    let resultsArrays ← promiseAll (searchPlaceType calcDist env userLocation radius) safeTypes
    pure (jsSortBy (fun a b => a.distance - b.distance) resultsArrays.flatten)
  match attempt with
  | .ok allLocations => allLocations
  | .error _ => []

/-- `getSafeZoneTypes(disasterType)` (googleMapsClient.js lines
318-334): switch on the lowercased disaster type. -/
def getSafeZoneTypes (disasterType : String) : List String :=
  let d := jsToLower disasterType
  if d = "flood" then ["school", "stadium", "government_office", "university"]
  else if d = "fire" then ["hospital", "police", "fire_station", "school"]
  else if d = "earthquake" then ["park", "stadium", "school", "open_area"]
  else if d = "tornado" ∨ d = "hurricane" then ["community_center", "school", "stadium"]
  else if d = "tsunami" then ["school", "stadium", "government_office"]
  else ["hospital", "police", "fire_station", "school"]

/-- `getSearchRadius(disasterType)` (googleMapsClient.js lines
337-349). -/
def getSearchRadius (disasterType : String) : ℚ :=
  let d := jsToLower disasterType
  if d = "flood" then 15000
  else if d = "fire" then 8000
  else if d = "tornado" ∨ d = "hurricane" then 20000
  else 10000

/-- `getLocationSafetyScore(location, disasterType)`
(googleMapsClient.js lines 375-394): base score 3 plus per-disaster
bonuses on the location type (switch on the lowercased disaster
type). -/
def getLocationSafetyScore (location : SafeLocation) (disasterType : String) : ℚ :=
  let score : ℚ := 3
  let d := jsToLower disasterType
  if d = "flood" then
    score + (if location.type = "school" then 2 else 0)
          + (if location.type = "stadium" then 2 else 0)
  else if d = "fire" then
    score + (if location.type = "fire_station" then 3 else 0)
          + (if location.type = "hospital" then 2 else 0)
  else if d = "earthquake" then
    score + (if location.type = "park" then 3 else 0)
          + (if location.type = "stadium" then 2 else 0)
  else score

/-- `filterLocationsByDisasterType(locations, disasterType)`
(googleMapsClient.js lines 352-372): hard exclusion of flood- and
fire-inappropriate types (the disaster type comparisons here are
case-sensitive, unlike the lowercased switches), then a sort by safety
score descending with distance ascending as tie break. -/
def filterLocationsByDisasterType (locations : List SafeLocation)
    (disasterType : String) : List SafeLocation :=
  jsSortBy
    (fun a b =>
      let scoreA := getLocationSafetyScore a disasterType
      let scoreB := getLocationSafetyScore b disasterType
      if scoreA ≠ scoreB then scoreB - scoreA else a.distance - b.distance)
    (locations.filter (fun location =>
      if decide (disasterType = "flood")
          && (["subway_station", "basement"].contains location.type) then false
      else if decide (disasterType = "fire")
          && (["gas_station", "chemical_plant"].contains location.type) then false
      else true))

/-- `findSafeZones(location, disasterType)` (googleMapsClient.js lines
294-315).  Note the source computes `safeTypes = getSafeZoneTypes(...)`
but never passes it on: `findNearbySafeLocations(location, radius)` is
called without a type and searches the default type list.  The body
cannot reject, so the surrounding catch (returning `[]`) is
unreachable. -/
def findSafeZones (calcDist : ℚ → ℚ → ℚ → ℚ → ℚ) (env : PlacesEnv)
    (location : LatLng) (disasterType : String) : List SafeLocation :=
  let _safeTypes := getSafeZoneTypes disasterType
  let radius := getSearchRadius disasterType
  let allLocations := findNearbySafeLocations calcDist env location radius none
  filterLocationsByDisasterType allLocations disasterType

/-- `getDirections(origin, destination, mode)` (googleMapsClient.js
lines 31-78): calls the directions API and throws when the payload
status is not `OK`; errors are logged and rethrown unchanged.  The
string-coordinate parsing branch of `formatLocation` is dead for the
in-repository callers, which always pass `{lat, lng}` records. -/
def getDirections (env : DirectionsEnv) (origin destination : LatLng)
    (mode : String) : Except String (List Route) := do
  let response ← env origin destination mode
  if response.status ≠ "OK" then
    throw ("Directions API error: " ++ response.status)
  else
    pure response.routes

/-- The travel-mode ternary of `calculateEvacuationRoute`
(googleMapsClient.js line 414):
`disasterType === 'flood' ? 'walking' : 'driving'` (case-sensitive). -/
def floodTravelMode (disasterType : String) : String :=
  if disasterType = "flood" then "walking" else "driving"

/-- `selectOptimalRoute(routes, safeZones, disasterType)`
(googleMapsClient.js lines 436-491): pair each destination with its
first route option, score 100 minus capped duration and distance
penalties plus destination-type bonuses (switch on the lowercased
disaster type), give invalid routes score 0, drop non-positive scores,
sort descending by score, and return the best or throw when none
remain. -/
def selectOptimalRoute (routes : List (List Route)) (safeZones : List SafeLocation)
    (disasterType : String) : Except String ScoredItem :=
  let routesWithDestinations := (routes.zip safeZones).map
    (fun p => (p.1.head?, p.2))
  let scoredRoutes := (routesWithDestinations.map (fun p =>
    let route := p.1
    let destination := p.2
    match route with
    | none => { route := route, destination := destination, score := 0 : ScoredItem }
    | some r =>
      match r.legs with
      | [] => { route := route, destination := destination, score := 0 : ScoredItem }
      | leg :: _ =>
        let duration := leg.duration.value
        let distance := leg.distance.value
        let score : ℚ := 100
        let score := score - min 40 (duration / 60)
        let score := score - min 30 (distance / 1000)
        let d := jsToLower disasterType
        let score :=
          if d = "flood" then
            score + (if destination.type = "stadium" then 15 else 0)
                  + (if destination.type = "school" then 10 else 0)
          else if d = "fire" then
            score + (if destination.type = "fire_station" then 20 else 0)
                  + (if destination.type = "hospital" then 15 else 0)
          else if d = "earthquake" then
            score + (if destination.type = "park" then 15 else 0)
                  + (if destination.type = "stadium" then 10 else 0)
          else score
        { route := route, destination := destination, score := score : ScoredItem })).filter
    (fun item => decide (item.score > 0))
  let sorted := jsSortBy (fun a b => b.score - a.score) scoredRoutes
  match sorted with
  | [] => .error "No viable evacuation routes found"
  | best :: _ => .ok best

/-- `calculateEvacuationRoute(userLocation, disasterType)`
(googleMapsClient.js lines 397-433): find safe zones, throw when there
are none, route to the three closest via `Promise.all` (walking for
`flood`, driving otherwise), select the optimal route and assemble the
result; errors are logged and rethrown. -/
def calculateEvacuationRoute (calcDist : ℚ → ℚ → ℚ → ℚ → ℚ)
    (placesEnv : PlacesEnv) (dirEnv : DirectionsEnv)
    (userLocation : LatLng) (disasterType : String) : Except String EvacResult := do
  let safeZones := findSafeZones calcDist placesEnv userLocation disasterType
  if safeZones.length = 0 then
    throw "No safe zones found"
  else
    let closestSafeZones := safeZones.take 3
    let routes ← promiseAll (fun zone =>
      getDirections dirEnv userLocation
        { lat := zone.location.lat, lng := zone.location.lng }
        (floodTravelMode disasterType)) closestSafeZones
    let optimalRoute ← selectOptimalRoute routes closestSafeZones disasterType
    pure { route := optimalRoute.route
           destination := optimalRoute.destination
           alternativeRoutes := routes }

/-- `calculateSafetyScore(route, disasterType)` (googleMapsClient.js
lines 223-255): a second, otherwise uncalled scoring helper with
different caps, warning penalties and hazard keyword penalties, clamped
to [0, 100].  The disaster type comparisons here are case-sensitive;
only the step instructions are lowercased. -/
def calculateSafetyScore (route : SafetyRoute) (disasterType : String) : ℚ :=
  let score : ℚ := 100
  let distanceKm := route.distance.value / 1000
  let score := score - min 30 (distanceKm * 2)
  let durationMinutes := route.duration.value / 60
  let score := score - min 20 durationMinutes
  let score := score - min 15 (route.steps.length : ℚ)
  let score :=
    if route.warnings.length > 0 then score - 10 * (route.warnings.length : ℚ) else score
  let score :=
    if disasterType = "flood" && route.steps.any (fun step =>
        strIncludes (jsToLower step.html_instructions) "tunnel"
        || strIncludes (jsToLower step.html_instructions) "underpass") then
      score - 40
    else score
  let score :=
    if disasterType = "earthquake" && route.steps.any (fun step =>
        strIncludes (jsToLower step.html_instructions) "bridge") then
      score - 30
    else score
  max 0 (min 100 score)

/-- The `mapService` object literal of googleMapsClient.js defines no
`getRoutes` key, so the property access `mapService.getRoutes` in the
evacuation controller evaluates to `undefined`; calling it throws a
`TypeError`.  Modelled as the absent (`none`) implementation. -/
def mapServiceGetRoutes : Option (LatLng → LatLng → Except String (List Route)) :=
  none

/-- `getOptimizedRoute` of the evacuation controller: validate the user
location (JavaScript truthiness rejects a missing location and zero
coordinates), try the AI optimizer, and on AI failure fall back to
`findNearbySafeLocations` plus `mapService.getRoutes`; any error thrown
in the fallback reaches the outer catch, which answers 500. -/
def getOptimizedRoute (calcDist : ℚ → ℚ → ℚ → ℚ → ℚ) (placesEnv : PlacesEnv)
    (aiResult : Except String Unit) (userLocation : Option LatLng) : HttpResponse :=
  match userLocation with
  | none =>
    { status := 400, success := false, source := none
      error := some "Valid user location required", message := none }
  | some loc =>
    if loc.lat = 0 ∨ loc.lng = 0 then
      { status := 400, success := false, source := none
        error := some "Valid user location required", message := none }
    else
      match aiResult with
      | .ok _ =>
        { status := 200, success := true, source := some "ai"
          error := none, message := none }
      | .error _ =>
        let fallback : Except String Unit := do
          let safeLocations := findNearbySafeLocations calcDist placesEnv loc 10000 none
          match safeLocations with
          | [] => throw "No safe locations found"
          | first :: _ =>
            match mapServiceGetRoutes with
            | none => throw "mapService.getRoutes is not a function"
            | some f => do
              let _ ← f loc first.location
              pure ()
        match fallback with
        | .ok _ =>
          { status := 200, success := true, source := some "map"
            error := none, message := none }
        | .error e =>
          { status := 500, success := false, source := none
            error := some "Failed to optimize evacuation route", message := some e }

/-- `deg2rad(deg)` (googleMapsClient.js lines 25-27). -/
noncomputable def deg2rad (deg : ℝ) : ℝ :=
  deg * (Real.pi / 180)

/-- JavaScript `Math.atan2(y, x)`. -/
noncomputable def atan2 (y x : ℝ) : ℝ :=
  if 0 < x then Real.arctan (y / x)
  else if x < 0 then
    (if 0 ≤ y then Real.arctan (y / x) + Real.pi else Real.arctan (y / x) - Real.pi)
  else if 0 < y then Real.pi / 2
  else if y < 0 then -(Real.pi / 2)
  else 0

set_option linter.unusedVariables false in
/-- `calculateDistance(lat1, lon1, lat2, lon2)` (googleMapsClient.js
lines 12-23), transcribed exactly as written: in particular the source
computes `dLon = deg2rad(lat2 - lon1)`, so `lon2` is never read. -/
noncomputable def calculateDistance (lat1 lon1 lat2 lon2 : ℝ) : ℝ :=
  let R : ℝ := 6371
  let dLat := deg2rad (lat2 - lat1)
  let dLon := deg2rad (lat2 - lon1)
  let a :=
    Real.sin (dLat / 2) * Real.sin (dLat / 2) +
      Real.cos (deg2rad lat1) * Real.cos (deg2rad lat2) *
        Real.sin (dLon / 2) * Real.sin (dLon / 2)
  let c := 2 * atan2 (Real.sqrt a) (Real.sqrt (1 - a))
  R * c

/-- Modelled from the spec: the intended great-circle distance by the
haversine formula, with the longitude difference taken between the two
longitudes (`dLon = lon2 - lon1`). -/
noncomputable def haversineDistance (lat1 lon1 lat2 lon2 : ℝ) : ℝ :=
  let R : ℝ := 6371
  let dLat := deg2rad (lat2 - lat1)
  let dLon := deg2rad (lon2 - lon1)
  let a :=
    Real.sin (dLat / 2) * Real.sin (dLat / 2) +
      Real.cos (deg2rad lat1) * Real.cos (deg2rad lat2) *
        Real.sin (dLon / 2) * Real.sin (dLon / 2)
  let c := 2 * atan2 (Real.sqrt a) (Real.sqrt (1 - a))
  R * c

/-- Modelled from the spec (claim C2 wording): the claimed
destination-category bonus table. -/
def claimedDestinationBonus (disasterType destType : String) : ℚ :=
  if disasterType = "flood" then
    (if destType = "stadium" then 15 else 0) + (if destType = "school" then 10 else 0)
  else if disasterType = "fire" then
    (if destType = "fire_station" then 20 else 0) + (if destType = "hospital" then 15 else 0)
  else if disasterType = "earthquake" then
    (if destType = "park" then 15 else 0) + (if destType = "stadium" then 10 else 0)
  else 0

/-- Modelled from the spec (claim C2 wording): for a candidate route
with valid leg data, 100 minus the duration, distance, step-count and
warning penalties, minus the hazard keyword penalties, plus the
destination-category bonus. -/
def claimedCompositeScore (route : Route) (destType disasterType : String) : ℚ :=
  match route.legs with
  | [] => 0
  | leg :: _ =>
    100 - min 40 (leg.duration.value / 60) - min 30 (leg.distance.value / 1000)
      - min 15 (route.steps.length : ℚ)
      - 10 * (route.warnings.length : ℚ)
      - (if disasterType = "flood" ∧ route.steps.any (fun step =>
            strIncludes (jsToLower step.html_instructions) "tunnel"
            || strIncludes (jsToLower step.html_instructions) "underpass") then 40 else 0)
      - (if disasterType = "earthquake" ∧ route.steps.any (fun step =>
            strIncludes (jsToLower step.html_instructions) "bridge") then 30 else 0)
      + claimedDestinationBonus disasterType destType

/-- Modelled from the amended claim C2: the destination-category bonus
actually applied by `selectOptimalRoute`, keyed on the lowercased
disaster type. -/
def amendedDestinationBonus (d destType : String) : ℚ :=
  if d = "flood" then
    (if destType = "stadium" then 15 else 0) + (if destType = "school" then 10 else 0)
  else if d = "fire" then
    (if destType = "fire_station" then 20 else 0) + (if destType = "hospital" then 15 else 0)
  else if d = "earthquake" then
    (if destType = "park" then 15 else 0) + (if destType = "stadium" then 10 else 0)
  else 0

/-- Modelled from the amended claim C2: the composite score
`selectOptimalRoute` actually computes — 100 minus the capped duration
and distance penalties plus the destination bonus, with score 0 for a
missing route or missing leg data, and no step, warning or
hazard-keyword terms. -/
def amendedCompositeScore (route : Option Route) (destType disasterType : String) : ℚ :=
  match route with
  | none => 0
  | some r =>
    match r.legs with
    | [] => 0
    | leg :: _ =>
      100 - min 40 (leg.duration.value / 60) - min 30 (leg.distance.value / 1000)
        + amendedDestinationBonus (jsToLower disasterType) destType

/-- Concrete data: a zero distance function (a legitimate
instantiation of the `calcDist` parameter, whose value no claim
depends on). -/
def czero : ℚ → ℚ → ℚ → ℚ → ℚ := fun _ _ _ _ => 0

/-- Concrete data: a places environment with one hospital and nothing
else. -/
def c1env : PlacesEnv := fun _ _ t =>
  if t = "hospital" then .ok [⟨"City Hospital", 19, 72, "MG Road", "p1"⟩] else .ok []

/-- Concrete data: a places environment whose hospital query fails
while its police query succeeds with one result. -/
def c5env : PlacesEnv := fun _ _ t =>
  if t = "hospital" then .error "hospital query failed"
  else if t = "police" then .ok [⟨"Central Police", 1, 2, "Fort Rd", "p5"⟩]
  else .ok []

/-- Concrete data: a places environment that always rejects (provider
unreachable). -/
def c6failEnv : PlacesEnv := fun _ _ _ => .error "ECONNREFUSED"

/-- Concrete data: a places environment that always resolves with zero
results. -/
def c6emptyEnv : PlacesEnv := fun _ _ _ => .ok []

/-- Concrete data: a school safe location. -/
def c9loc : SafeLocation := ⟨"Hill School", ⟨5, 6⟩, "High St", "p9", "school", 2⟩

/-- Concrete data: a subway-station safe location. -/
def c10sub : SafeLocation := ⟨"Metro Stop", ⟨1, 2⟩, "Underground Ave", "p10", "subway_station", 3⟩

/-- Concrete data: a school safe location for the case-handling
claim. -/
def c10school : SafeLocation := ⟨"Lake School", ⟨1, 2⟩, "Shore Rd", "p11", "school", 4⟩

/-- Concrete data: a 50-minute, 5-step route with no warnings. -/
def c2route : Route :=
  ⟨[⟨⟨3000⟩, ⟨0⟩⟩],
   [⟨"Turn left"⟩, ⟨"Turn right"⟩, ⟨"Continue straight"⟩, ⟨"Turn left"⟩, ⟨"Arrive"⟩],
   []⟩

/-- Concrete data: a government-office destination. -/
def c2zone : SafeLocation := ⟨"Town Office", ⟨2, 3⟩, "Civic Rd", "p2", "government_office", 1⟩

/-- Concrete data: the scored item `selectOptimalRoute` produces for
`c2route` and `c2zone` under the `general` disaster type. -/
def c2item : ScoredItem := ⟨some c2route, c2zone, 60⟩

/-- Concrete data: the same route in the shape read by
`calculateSafetyScore`. -/
def c2safety : SafetyRoute :=
  ⟨⟨0⟩, ⟨3000⟩,
   [⟨"Turn left"⟩, ⟨"Turn right"⟩, ⟨"Continue straight"⟩, ⟨"Turn left"⟩, ⟨"Arrive"⟩],
   []⟩

/-- Concrete data: a zero-cost route. -/
def c3route : Route := ⟨[⟨⟨0⟩, ⟨0⟩⟩], [], []⟩

/-- Concrete data: a stadium destination. -/
def c3stadium : SafeLocation := ⟨"Arena", ⟨8, 9⟩, "Ring Rd", "p3", "stadium", 1⟩

/-- Concrete data: the scored item `selectOptimalRoute` produces for
`c3route` and `c3stadium` under the `flood` disaster type. -/
def c3item : ScoredItem := ⟨some c3route, c3stadium, 115⟩

/-- Concrete data: a places environment with two schools. -/
def c4places : PlacesEnv := fun _ _ t =>
  if t = "school" then
    .ok [⟨"East School", 7, 10, "East Rd", "pe"⟩, ⟨"West School", 7, 20, "West Rd", "pw"⟩]
  else .ok []

/-- Concrete data: a valid route returned for the second school. -/
def c4okRoute : Route := ⟨[⟨⟨600⟩, ⟨2000⟩⟩], [⟨"Head north"⟩], []⟩

/-- Concrete data: a directions environment that rejects for the first
school (longitude 10) and resolves for every other destination. -/
def c4dir : DirectionsEnv := fun _ d _ =>
  if d.lng = 10 then .error "network down" else .ok ⟨"OK", [c4okRoute]⟩

/-- Concrete data: the safe-zone record the pipeline builds for the
first school. -/
def c4zoneE : SafeLocation := ⟨"East School", ⟨7, 10⟩, "East Rd", "pe", "school", 0⟩

/-- Concrete data: the safe-zone record the pipeline builds for the
second school. -/
def c4zoneW : SafeLocation := ⟨"West School", ⟨7, 20⟩, "West Rd", "pw", "school", 0⟩

/-- Membership is preserved by the stable insertion step. -/
theorem mem_jsInsert {cmp : α → α → ℚ} {x a : α} {l : List α} :
    a ∈ jsInsert cmp x l ↔ a = x ∨ a ∈ l := by
  induction l with
  | nil => simp [jsInsert]
  | cons y ys ih =>
    simp only [jsInsert]
    split
    · simp only [List.mem_cons, ih]
      tauto
    · simp only [List.mem_cons]

/-- The comparator sort permutes its input, so membership is
preserved. -/
theorem mem_jsSortBy {cmp : α → α → ℚ} {a : α} {l : List α} :
    a ∈ jsSortBy cmp l ↔ a ∈ l := by
  induction l with
  | nil => exact Iff.rfl
  | cons y ys ih =>
    rw [jsSortBy, mem_jsInsert, ih, List.mem_cons]

/-- `Promise.all` rejects as soon as one of its units rejects. -/
theorem promiseAll_isErr {f : α → Except ε β} {l : List α} {x : α}
    (hx : x ∈ l) (he : isErr (f x) = true) : isErr (promiseAll f l) = true := by
  induction l with
  | nil => cases hx
  | cons y ys ih =>
    simp only [promiseAll]
    cases hfy : f y with
    | error e => simp [hfy, isErr, Bind.bind, Except.bind]
    | ok v =>
      rcases List.mem_cons.mp hx with rfl | hx2
      · rw [hfy] at he
        simp [isErr] at he
      · have h2 := ih hx2
        cases hys : promiseAll f ys with
        | error e => simp [hys, isErr, Bind.bind, Except.bind, Functor.map, Except.map]
        | ok vs => rw [hys] at h2; simp [isErr] at h2

/-- When one per-type places query rejects, the whole
`findNearbySafeLocations` call takes the catch branch and returns the
empty array. -/
theorem findNearbySafeLocations_eq_nil_of_isErr {calcDist : ℚ → ℚ → ℚ → ℚ → ℚ}
    {env : PlacesEnv} {loc : LatLng} {radius : ℚ} {type : Option String} {t : String}
    (ht : t ∈ safeTypesFor type)
    (herr : isErr (env loc (clampedRadius radius) t) = true) :
    findNearbySafeLocations calcDist env loc radius type = [] := by
  have hall : isErr (promiseAll (searchPlaceType calcDist env loc radius)
      (safeTypesFor type)) = true := by
    refine promiseAll_isErr ht ?_
    simp only [searchPlaceType]
    cases he : env loc (clampedRadius radius) t with
    | error e2 => simp [isErr, Bind.bind, Except.bind]
    | ok v => rw [he] at herr; simp [isErr] at herr
  simp only [findNearbySafeLocations]
  cases hP : promiseAll (searchPlaceType calcDist env loc radius) (safeTypesFor type) with
  | error e2 => simp [hP, Bind.bind, Except.bind]
  | ok vs => rw [hP] at hall; simp [isErr] at hall

/-- `Promise.all` over units that all resolve with the empty list. -/
theorem promiseAll_all_nil {f : α → Except ε (List β)} {l : List α}
    (h : ∀ x ∈ l, f x = .ok []) :
    promiseAll f l = .ok (l.map (fun _ => [])) := by
  induction l with
  | nil => rfl
  | cons y ys ih =>
    have hy := h y (List.mem_cons_self y ys)
    have hys := ih (fun x hx => h x (List.mem_cons_of_mem y hx))
    simp [promiseAll, hy, hys, Bind.bind, Except.bind, Functor.map, Except.map,
      Pure.pure, Except.pure]

/-- When every per-type places query resolves with zero results,
`findNearbySafeLocations` returns the empty array. -/
theorem findNearbySafeLocations_eq_nil_of_all_empty {calcDist : ℚ → ℚ → ℚ → ℚ → ℚ}
    {env : PlacesEnv} {loc : LatLng} {radius : ℚ} {type : Option String}
    (hempty : ∀ t, env loc (clampedRadius radius) t = .ok []) :
    findNearbySafeLocations calcDist env loc radius type = [] := by
  have hall : ∀ t ∈ safeTypesFor type,
      searchPlaceType calcDist env loc radius t = .ok [] := by
    intro t _
    simp [searchPlaceType, hempty t, Bind.bind, Except.bind, Pure.pure, Except.pure]
  simp only [findNearbySafeLocations]
  rw [promiseAll_all_nil hall]
  simp only [Bind.bind, Except.bind]
  have hflat : (List.map (fun _ => ([] : List SafeLocation)) (safeTypesFor type)).flatten
      = [] := by
    induction safeTypesFor type with
    | nil => rfl
    | cons y ys ih => simp [ih]
  rw [hflat]
  rfl

/-- The first component of a zipped pair is a member of the first
list. -/
theorem zip_fst_mem {l1 : List α} {l2 : List β} {a : α} {b : β}
    (h : (a, b) ∈ l1.zip l2) : a ∈ l1 := by
  induction l1 generalizing l2 with
  | nil => simp at h
  | cons x xs ih =>
    cases l2 with
    | nil => simp at h
    | cons y ys =>
      rw [List.zip_cons_cons] at h
      rcases List.mem_cons.mp h with h1 | h2
      · simp only [Prod.mk.injEq] at h1
        exact h1.1 ▸ List.mem_cons_self x xs
      · exact List.mem_cons_of_mem _ (ih h2)

/-- The head, when present, is a member. -/
theorem mem_of_head?_eq_some {l : List α} {a : α} (h : l.head? = some a) : a ∈ l := by
  cases l with
  | nil => simp at h
  | cons x xs =>
    simp only [List.head?_cons, Option.some.injEq] at h
    exact h ▸ List.mem_cons_self x xs

/-- Evaluation of the route scorer on the concrete 50-minute 5-step
route: the destination earns no bonus under `general` and the step
count is ignored, so the score is 60. -/
theorem c2_select_eval :
    selectOptimalRoute [[c2route]] [c2zone] "general" = .ok c2item := by
  have hg : jsToLower "general" = "general" := by decide
  have hsc : (100:ℚ) - min 40 (3000 / 60) - min 30 (0 / 1000) = 60 := by norm_num
  have hsc2 : (100:ℚ) - min 40 (3000 / 60) = 60 := by norm_num
  have hp : decide ((0:ℚ) < 60) = true := by decide
  simp [selectOptimalRoute, c2route, c2zone, c2item, hg, hsc, hsc2, hp, jsSortBy, jsInsert]

/-- Evaluation of the claimed formula on the same route: the 5-step
penalty makes it 55. -/
theorem c2_claimed_eval :
    claimedCompositeScore c2route "government_office" "general" = 55 := by
  simp [claimedCompositeScore, claimedDestinationBonus, c2route]
  norm_num

/-- Evaluation of the unused `calculateSafetyScore` helper on the same
route: its different caps give 75. -/
theorem c2_safety_eval : calculateSafetyScore c2safety "general" = 75 := by
  simp [calculateSafetyScore, c2safety]
  norm_num

/-- Evaluation of the route scorer on the concrete zero-cost route to a
stadium during a flood: the bonus lifts the score to 115. -/
theorem c3_select_eval :
    selectOptimalRoute [[c3route]] [c3stadium] "flood" = .ok c3item := by
  have hg : jsToLower "flood" = "flood" := by decide
  have hsc : ((100:ℚ) - min 40 (0 / 60) - min 30 (0 / 1000) + 15) + 0 = 115 := by norm_num
  have hsc2 : ((100:ℚ) + 15) + 0 = 115 := by norm_num
  have hsc3 : (100:ℚ) + 15 = 115 := by norm_num
  have hp : decide ((0:ℚ) < 115) = true := by decide
  simp [selectOptimalRoute, c3route, c3stadium, c3item, hg, hsc, hsc2, hsc3, hp,
    jsSortBy, jsInsert]

/-- Evaluation of `findSafeZones` on the two-school environment: both
schools survive the filter, tie on score and distance, and keep their
category order. -/
theorem c4_findSafeZones :
    findSafeZones czero c4places ⟨7, 5⟩ "general" = [c4zoneE, c4zoneW] := by
  have h1 : getLocationSafetyScore
      ⟨"East School", ⟨7, 10⟩, "East Rd", "pe", "school", 0⟩ "general" = 3 := by decide
  have h2 : getLocationSafetyScore
      ⟨"West School", ⟨7, 20⟩, "West Rd", "pw", "school", 0⟩ "general" = 3 := by decide
  simp [findSafeZones, findNearbySafeLocations, searchPlaceType, promiseAll,
    safeTypesFor, defaultSafeTypes, clampedRadius, Bind.bind, Except.bind, Pure.pure,
    Except.pure, jsSortBy, jsInsert, filterLocationsByDisasterType, List.filter,
    h1, h2, czero, c4places, c4zoneE, c4zoneW, sub_self, lt_self_iff_false]

/-- Claim C1 (code bug evidence): when the AI optimizer fails, the
controller fallback never produces a successful geo-fallback response —
for every places environment with at least one safe location near a
valid user location, `getOptimizedRoute` answers 500 with the generic
error body, because the fallback calls the nonexistent
`mapService.getRoutes` and the resulting TypeError reaches the outer
catch.  The claim says it must answer 200 with the geo-fallback
source. -/
theorem C1_ai_failure_fallback_returns_500 (calcDist : ℚ → ℚ → ℚ → ℚ → ℚ)
    (placesEnv : PlacesEnv) (e : String) (loc : LatLng)
    (hlat : ¬ loc.lat = 0) (hlng : ¬ loc.lng = 0)
    (hnonempty : findNearbySafeLocations calcDist placesEnv loc 10000 none ≠ []) :
    getOptimizedRoute calcDist placesEnv (.error e) (some loc) =
      { status := 500, success := false, source := none
        error := some "Failed to optimize evacuation route"
        message := some "mapService.getRoutes is not a function" } := by
  simp only [getOptimizedRoute]
  rw [if_neg (by tauto)]
  cases hsl : findNearbySafeLocations calcDist placesEnv loc 10000 none with
  | nil => exact absurd hsl hnonempty
  | cons first rest => simp [hsl, mapServiceGetRoutes]

/-- Claim C1 witness: a concrete failing input — the AI optimizer
rejects and the places provider has a hospital, yet the response is the
500 error. -/
theorem C1_ai_failure_fallback_returns_500_witness :
    findNearbySafeLocations czero c1env ⟨19, 72⟩ 10000 none ≠ [] ∧
    getOptimizedRoute czero c1env (.error "AI timeout") (some ⟨19, 72⟩) =
      { status := 500, success := false, source := none
        error := some "Failed to optimize evacuation route"
        message := some "mapService.getRoutes is not a function" } :=
  ⟨by decide,
    C1_ai_failure_fallback_returns_500 czero c1env "AI timeout" ⟨19, 72⟩
      (by decide) (by decide) (by decide)⟩

/-- Claim C5 counterexample: the police category query succeeds with a
result while the hospital query fails, yet `findNearbySafeLocations`
returns the empty array — the successful category is discarded, not
merged. -/
theorem C5_category_isolation_counterexample :
    c5env ⟨1, 2⟩ (clampedRadius 10000) "police" =
      .ok [⟨"Central Police", 1, 2, "Fort Rd", "p5"⟩] ∧
    findNearbySafeLocations czero c5env ⟨1, 2⟩ 10000 none = [] := by
  constructor
  · decide
  · decide

/-- Claim C5 (amended): a single category query failure aborts the
whole merge — whenever any searched category query rejects,
`findNearbySafeLocations` returns the empty array and every successful
category result is discarded. -/
theorem C5_category_failure_empties_all (calcDist : ℚ → ℚ → ℚ → ℚ → ℚ)
    (env : PlacesEnv) (loc : LatLng) (radius : ℚ) (type : Option String) (t : String)
    (ht : t ∈ safeTypesFor type)
    (herr : isErr (env loc (clampedRadius radius) t) = true) :
    findNearbySafeLocations calcDist env loc radius type = [] :=
  findNearbySafeLocations_eq_nil_of_isErr ht herr

/-- Claim C5 witness: the amended statement applied to the concrete
environment whose hospital query fails. -/
theorem C5_category_failure_empties_all_witness :
    "hospital" ∈ safeTypesFor none ∧
    isErr (c5env ⟨1, 2⟩ (clampedRadius 10000) "hospital") = true ∧
    findNearbySafeLocations czero c5env ⟨1, 2⟩ 10000 none = [] :=
  ⟨by decide, by decide,
    C5_category_failure_empties_all czero c5env ⟨1, 2⟩ 10000 none "hospital"
      (by decide) (by decide)⟩

/-- Claim C6 counterexample: with an unreachable provider,
`findSafeZones` returns the ordinary empty array rather than raising a
provider error — exactly the same value it returns when the provider
succeeds with zero results, so the caller cannot distinguish the two
cases. -/
theorem C6_provider_failure_counterexample :
    findSafeZones czero c6failEnv ⟨19, 72⟩ "flood" = [] ∧
    findSafeZones czero c6emptyEnv ⟨19, 72⟩ "flood" = [] := by
  constructor
  · decide
  · decide

/-- Claim C6 (amended): `findSafeZones` never raises — both a rejected
category query and a provider that finds nothing yield the same empty
sequence. -/
theorem C6_failure_indistinguishable (calcDist : ℚ → ℚ → ℚ → ℚ → ℚ)
    (env1 env2 : PlacesEnv) (loc : LatLng) (disasterType : String) (t : String)
    (ht : t ∈ safeTypesFor none)
    (herr : isErr (env1 loc (clampedRadius (getSearchRadius disasterType)) t) = true)
    (hempty : ∀ t2, env2 loc (clampedRadius (getSearchRadius disasterType)) t2 = .ok []) :
    findSafeZones calcDist env1 loc disasterType = [] ∧
    findSafeZones calcDist env2 loc disasterType = [] := by
  constructor
  · simp only [findSafeZones]
    rw [findNearbySafeLocations_eq_nil_of_isErr ht herr]
    rfl
  · simp only [findSafeZones]
    rw [findNearbySafeLocations_eq_nil_of_all_empty hempty]
    rfl

/-- Claim C6 witness: the amended statement applied to the concrete
failing and empty environments. -/
theorem C6_failure_indistinguishable_witness :
    "hospital" ∈ safeTypesFor none ∧
    isErr (c6failEnv ⟨19, 72⟩ (clampedRadius (getSearchRadius "flood")) "hospital") = true ∧
    (findSafeZones czero c6failEnv ⟨19, 72⟩ "flood" = [] ∧
     findSafeZones czero c6emptyEnv ⟨19, 72⟩ "flood" = []) :=
  ⟨by decide, by decide,
    C6_failure_indistinguishable czero c6failEnv c6emptyEnv ⟨19, 72⟩ "flood" "hospital"
      (by decide) (by decide) (fun _ => rfl)⟩

/-- Claim C7 (code bug evidence): the distance helper is not the
haversine formula — the source computes the longitude difference as
`lat2 - lon1`, never reading `lon2`, so the computed distance between
the origin and any point on the equator is 0, while the haversine
distance from (0,0) to (0,180) is 6371·π km. -/
theorem C7_distance_ignores_longitude :
    (∀ lon2 : ℝ, calculateDistance 0 0 0 lon2 = 0) ∧
    haversineDistance 0 0 0 180 = 6371 * Real.pi ∧
    0 < 6371 * Real.pi := by
  refine ⟨?_, ?_, by positivity⟩
  · intro lon2
    simp only [calculateDistance, deg2rad]
    norm_num [atan2, Real.arctan_zero]
  · have e1 : ((0:ℝ) - 0) * (Real.pi / 180) = 0 := by ring
    have e2 : ((180:ℝ) - 0) * (Real.pi / 180) = Real.pi := by ring
    have e3 : (0:ℝ) * (Real.pi / 180) = 0 := by ring
    simp only [haversineDistance, deg2rad, e1, e2, e3]
    norm_num [Real.sin_pi_div_two, Real.sqrt_one, Real.sqrt_zero, atan2]
    ring

/-- Claim C8 counterexample: the earthquake category list contains the
extra category `open_area`, so it is not exactly the claimed
{park, stadium, school}. -/
theorem C8_earthquake_includes_open_area :
    "open_area" ∈ getSafeZoneTypes "earthquake" ∧
    getSafeZoneTypes "earthquake" ≠ ["park", "stadium", "school"] := by
  constructor
  · decide
  · decide

/-- Claim C8 (amended): the category lookup table as implemented —
identical to the claim except that earthquake additionally includes
`open_area`; every unknown type falls back to the default list. -/
theorem C8_category_table_amended :
    getSafeZoneTypes "flood" = ["school", "stadium", "government_office", "university"] ∧
    getSafeZoneTypes "fire" = ["hospital", "police", "fire_station", "school"] ∧
    getSafeZoneTypes "earthquake" = ["park", "stadium", "school", "open_area"] ∧
    getSafeZoneTypes "tornado" = ["community_center", "school", "stadium"] ∧
    getSafeZoneTypes "hurricane" = ["community_center", "school", "stadium"] ∧
    getSafeZoneTypes "tsunami" = ["school", "stadium", "government_office"] ∧
    (∀ s : String,
      jsToLower s ∉ ["flood", "fire", "earthquake", "tornado", "hurricane", "tsunami"] →
      getSafeZoneTypes s = ["hospital", "police", "fire_station", "school"]) := by
  refine ⟨by decide, by decide, by decide, by decide, by decide, by decide, ?_⟩
  intro s h
  simp only [List.mem_cons, List.not_mem_nil, or_false, not_or] at h
  obtain ⟨h1, h2, h3, h4, h5, h6⟩ := h
  simp only [getSafeZoneTypes]
  rw [if_neg h1, if_neg h2, if_neg h3, if_neg (not_or.mpr ⟨h4, h5⟩), if_neg h6]

/-- Claim C8 witness: the default clause of the amended table applied
to a type outside the table. -/
theorem C8_category_table_amended_witness :
    jsToLower "volcano" ∉ ["flood", "fire", "earthquake", "tornado", "hurricane", "tsunami"] ∧
    getSafeZoneTypes "volcano" = ["hospital", "police", "fire_station", "school"] :=
  ⟨by decide, C8_category_table_amended.2.2.2.2.2.2 "volcano" (by decide)⟩

/-- Claim C9 (confirmed): for every disaster type and every input list,
the filtered list never contains a candidate from that type's exclusion
set — no subway_station or basement candidate for flood, no gas_station
or chemical_plant candidate for fire. -/
theorem C9_exclusion_invariant (locations : List SafeLocation) (disasterType : String)
    (c : SafeLocation) (hc : c ∈ filterLocationsByDisasterType locations disasterType) :
    (disasterType = "flood" → c.type ≠ "subway_station" ∧ c.type ≠ "basement") ∧
    (disasterType = "fire" → c.type ≠ "gas_station" ∧ c.type ≠ "chemical_plant") := by
  rw [filterLocationsByDisasterType, mem_jsSortBy] at hc
  have hpred := List.of_mem_filter hc
  constructor
  · rintro rfl
    refine ⟨fun hty => ?_, fun hty => ?_⟩ <;>
      · rw [hty] at hpred
        simp at hpred
  · rintro rfl
    refine ⟨fun hty => ?_, fun hty => ?_⟩ <;>
      · rw [hty] at hpred
        simp at hpred

/-- Claim C9 witness: the invariant applied to a school candidate that
survives the flood filter. -/
theorem C9_exclusion_invariant_witness :
    c9loc ∈ filterLocationsByDisasterType [c9loc] "flood" ∧
    ("flood" = "flood" → c9loc.type ≠ "subway_station" ∧ c9loc.type ≠ "basement") :=
  ⟨by decide, (C9_exclusion_invariant [c9loc] "flood" c9loc (by decide)).1⟩

/-- Claim C10 counterexample: the pipeline is not invariant under the
letter case of the disaster type — `"Flood"` selects the flood category
table, but the exclusion filter keeps a subway station that `"flood"`
removes. -/
theorem C10_case_sensitivity_counterexample :
    getSafeZoneTypes "Flood" = getSafeZoneTypes "flood" ∧
    filterLocationsByDisasterType [c10sub] "flood" = [] ∧
    filterLocationsByDisasterType [c10sub] "Flood" = [c10sub] := by
  refine ⟨by decide, by decide, by decide⟩

/-- Claim C10 (amended): category selection, search radius and the
suitability score lowercase the disaster type, while the exclusion
filter and the flood walking-mode rule compare case-sensitively against
the lowercase literals, so a mixed-case value such as `"Flood"` gets
flood categories, radius and bonuses but no exclusion filtering and the
driving mode. -/
theorem C10_case_handling_amended :
    getSafeZoneTypes "Flood" = getSafeZoneTypes "flood" ∧
    getSearchRadius "Flood" = getSearchRadius "flood" ∧
    getLocationSafetyScore c10school "Flood" = getLocationSafetyScore c10school "flood" ∧
    filterLocationsByDisasterType [c10sub] "Flood" = [c10sub] ∧
    filterLocationsByDisasterType [c10sub] "flood" = [] ∧
    floodTravelMode "Flood" = "driving" ∧
    floodTravelMode "flood" = "walking" := by
  have h : jsToLower "Flood" = "flood" := by decide
  have h2 : jsToLower "flood" = "flood" := by decide
  refine ⟨by decide, ?_, ?_, by decide, by decide, by decide, by decide⟩
  · simp [getSearchRadius, h, h2]
  · simp [getLocationSafetyScore, h, h2]

/-- Claim C2 counterexample: on a 50-minute, 5-step, warning-free route
to a government office under `general`, the scorer used by the
evacuation pipeline computes 60, while the claimed formula gives 55
(and the unused `calculateSafetyScore` helper gives 75) — the claimed
formula matches neither scoring function. -/
theorem C2_score_formula_counterexample :
    selectOptimalRoute [[c2route]] [c2zone] "general" = .ok c2item ∧
    c2item.score = 60 ∧
    claimedCompositeScore c2route "government_office" "general" = 55 ∧
    calculateSafetyScore c2safety "general" = 75 ∧
    ¬ c2item.score = claimedCompositeScore c2route "government_office" "general" := by
  refine ⟨c2_select_eval, rfl, c2_claimed_eval, c2_safety_eval, ?_⟩
  rw [c2_claimed_eval]
  decide

/-- Claim C2 (amended): the composite score `selectOptimalRoute`
computes is 100 minus `min(40, durationSeconds/60)` minus
`min(30, distanceMeters/1000)` plus the destination-category bonus
(flood: stadium +15, school +10; fire: fire_station +20,
hospital +15; earthquake: park +15, stadium +10, keyed on the
lowercased disaster type), with no step-count, warning or
hazard-keyword terms; a missing route or missing leg data scores 0. -/
theorem C2_composite_score_amended (routes : List (List Route))
    (safeZones : List SafeLocation) (disasterType : String) (it : ScoredItem)
    (hit : selectOptimalRoute routes safeZones disasterType = .ok it) :
    it.score = amendedCompositeScore it.route it.destination.type disasterType := by
  simp only [selectOptimalRoute] at hit
  split at hit
  · exact absurd hit (by simp)
  · rename_i best rest heq
    have hbest : best = it := by injection hit
    subst hbest
    have hmem := heq.symm ▸ List.mem_cons_self best rest
    rw [mem_jsSortBy, List.mem_filter] at hmem
    obtain ⟨hmap, hpos⟩ := hmem
    rw [List.mem_map] at hmap
    obtain ⟨p, hp, hfp⟩ := hmap
    rw [← hfp]
    obtain ⟨r?, dest⟩ := p
    cases r? with
    | none => simp [amendedCompositeScore]
    | some r =>
      cases hlegs : r.legs with
      | nil => simp [amendedCompositeScore, hlegs]
      | cons leg tl =>
        simp only [hlegs, amendedCompositeScore, amendedDestinationBonus]
        by_cases hf : jsToLower disasterType = "flood"
        · simp only [if_pos hf]
          ring
        · by_cases hfi : jsToLower disasterType = "fire"
          · simp only [if_neg hf, if_pos hfi]
            ring
          · by_cases he : jsToLower disasterType = "earthquake"
            · simp only [if_neg hf, if_neg hfi, if_pos he]
              ring
            · simp only [if_neg hf, if_neg hfi, if_neg he]
              ring

/-- Claim C2 witness: the amended formula applied to the concrete
route. -/
theorem C2_composite_score_amended_witness :
    selectOptimalRoute [[c2route]] [c2zone] "general" = .ok c2item ∧
    c2item.score = amendedCompositeScore c2item.route c2item.destination.type "general" :=
  ⟨c2_select_eval,
    C2_composite_score_amended [[c2route]] [c2zone] "general" c2item c2_select_eval⟩

/-- Claim C3 counterexample: the zero-cost flood route to a stadium is
returned with composite score 115, outside [0, 100] — the scorer
applies no clamp. -/
theorem C3_score_range_counterexample :
    selectOptimalRoute [[c3route]] [c3stadium] "flood" = .ok c3item ∧
    c3item.score = 115 ∧
    ¬ c3item.score ≤ 100 :=
  ⟨c3_select_eval, rfl, by decide⟩

/-- Claim C3 (amended): for nonnegative provider leg data, the score of
the selected route lies in (0, 120] — it is strictly positive because
non-positive scores are filtered out, and at most 100 plus the maximal
destination bonus of 20; no clamp to [0, 100] is applied. -/
theorem C3_score_range_amended (routes : List (List Route))
    (safeZones : List SafeLocation) (disasterType : String) (it : ScoredItem)
    (hvals : ∀ rs ∈ routes, ∀ r ∈ rs, ∀ leg ∈ r.legs,
      0 ≤ leg.duration.value ∧ 0 ≤ leg.distance.value)
    (hit : selectOptimalRoute routes safeZones disasterType = .ok it) :
    0 < it.score ∧ it.score ≤ 120 := by
  simp only [selectOptimalRoute] at hit
  split at hit
  · exact absurd hit (by simp)
  · rename_i best rest heq
    have hbest : best = it := by injection hit
    subst hbest
    have hmem := heq.symm ▸ List.mem_cons_self best rest
    rw [mem_jsSortBy, List.mem_filter] at hmem
    obtain ⟨hmap, hpos⟩ := hmem
    refine ⟨of_decide_eq_true hpos, ?_⟩
    rw [List.mem_map] at hmap
    obtain ⟨p, hp, hfp⟩ := hmap
    rw [← hfp]
    rw [List.mem_map] at hp
    obtain ⟨q, hq, hqp⟩ := hp
    rw [← hqp]
    obtain ⟨rs, z⟩ := q
    have hrs : rs ∈ routes := zip_fst_mem hq
    cases hh : rs.head? with
    | none => simp [hh]
    | some r =>
      have hr : r ∈ rs := mem_of_head?_eq_some hh
      cases hlegs : r.legs with
      | nil => simp [hh, hlegs]
      | cons leg tl =>
        have hleg : leg ∈ r.legs := by
          rw [hlegs]
          exact List.mem_cons_self _ _
        obtain ⟨hdur, hdist⟩ := hvals rs hrs r hr leg hleg
        have hm1 : 0 ≤ min (40:ℚ) (leg.duration.value / 60) :=
          le_min (by norm_num) (div_nonneg hdur (by norm_num))
        have hm2 : 0 ≤ min (30:ℚ) (leg.distance.value / 1000) :=
          le_min (by norm_num) (div_nonneg hdist (by norm_num))
        simp only [hh, hlegs]
        split_ifs <;> first | linarith | simp_all

/-- Claim C3 witness: the amended bounds applied to the concrete flood
route, whose score is 115. -/
theorem C3_score_range_amended_witness :
    (∀ rs ∈ [[c3route]], ∀ r ∈ rs, ∀ leg ∈ r.legs,
      0 ≤ leg.duration.value ∧ 0 ≤ leg.distance.value) ∧
    selectOptimalRoute [[c3route]] [c3stadium] "flood" = .ok c3item ∧
    (0 < c3item.score ∧ c3item.score ≤ 120) :=
  ⟨by decide, c3_select_eval,
    C3_score_range_amended [[c3route]] [c3stadium] "flood" c3item (by decide) c3_select_eval⟩

/-- Claim C4 counterexample: with two reachable schools, routing fails
for the first and succeeds for the second, yet `calculateEvacuationRoute`
returns the routing error — the successful candidate is not kept. -/
theorem C4_partial_failure_counterexample :
    calculateEvacuationRoute czero c4places c4dir ⟨7, 5⟩ "general" = .error "network down" ∧
    getDirections c4dir ⟨7, 5⟩ ⟨7, 20⟩ "driving" = .ok [c4okRoute] := by
  constructor
  · simp only [calculateEvacuationRoute, c4_findSafeZones]
    simp [promiseAll, getDirections, c4dir, floodTravelMode, Bind.bind, Except.bind,
      c4zoneE, c4zoneW]
  · decide

/-- Claim C4 (amended): one routing failure aborts planning for every
candidate — if the directions request rejects for any of the top-3 safe
zones, the whole `calculateEvacuationRoute` call fails via
`Promise.all`, even when routing succeeds for the other candidates;
only routes that resolve with missing leg data are dropped silently
(scored 0 and filtered). -/
theorem C4_routing_failure_aborts (calcDist : ℚ → ℚ → ℚ → ℚ → ℚ)
    (placesEnv : PlacesEnv) (dirEnv : DirectionsEnv) (loc : LatLng) (dt : String)
    (zone : SafeLocation)
    (hzone : zone ∈ (findSafeZones calcDist placesEnv loc dt).take 3)
    (herr : isErr (getDirections dirEnv loc ⟨zone.location.lat, zone.location.lng⟩
      (floodTravelMode dt)) = true) :
    isErr (calculateEvacuationRoute calcDist placesEnv dirEnv loc dt) = true := by
  have hne : ¬ (findSafeZones calcDist placesEnv loc dt).length = 0 := by
    intro h
    rw [List.length_eq_zero] at h
    rw [h] at hzone
    simp at hzone
  have hP : isErr (promiseAll (fun z => getDirections dirEnv loc
      ⟨z.location.lat, z.location.lng⟩ (floodTravelMode dt))
      ((findSafeZones calcDist placesEnv loc dt).take 3)) = true :=
    promiseAll_isErr hzone herr
  simp only [calculateEvacuationRoute]
  rw [if_neg hne]
  cases hPA : promiseAll (fun z => getDirections dirEnv loc
      ⟨z.location.lat, z.location.lng⟩ (floodTravelMode dt))
      ((findSafeZones calcDist placesEnv loc dt).take 3) with
  | error e => simp [Bind.bind, Except.bind, isErr]
  | ok v => rw [hPA] at hP; simp [isErr] at hP

/-- Claim C4 witness: the amended statement applied to the concrete
two-school scenario, failing on the first school. -/
theorem C4_routing_failure_aborts_witness :
    c4zoneE ∈ (findSafeZones czero c4places ⟨7, 5⟩ "general").take 3 ∧
    isErr (getDirections c4dir ⟨7, 5⟩ ⟨c4zoneE.location.lat, c4zoneE.location.lng⟩
      (floodTravelMode "general")) = true ∧
    isErr (calculateEvacuationRoute czero c4places c4dir ⟨7, 5⟩ "general") = true := by
  have hmem : c4zoneE ∈ (findSafeZones czero c4places ⟨7, 5⟩ "general").take 3 := by
    rw [c4_findSafeZones]
    decide
  have herr : isErr (getDirections c4dir ⟨7, 5⟩
      ⟨c4zoneE.location.lat, c4zoneE.location.lng⟩ (floodTravelMode "general")) = true := by
    decide
  exact ⟨hmem, herr,
    C4_routing_failure_aborts czero c4places c4dir ⟨7, 5⟩ "general" c4zoneE hmem herr⟩

end SafeEscape
